import Mathlib

/-!
Verification of the frame-handoff pipeline in
`examples/vulkan/vk_save_video/control/` (files `mod.rs` and `video.rs`).

The embedding models the two `std::sync::mpsc` channels, the
`VideoControl` struct with its `play` / `stop` / `next_buffer` /
`return_buffer` operations (`mod.rs`), and the gstreamer `need_data`
callback installed by `video::setup` together with the frame-copy closure
`cb` built in `new` (`mod.rs` lines 57-79, `video.rs` lines 162-199).

Buffers (`Arc<vk::CpuAccessibleBuffer<[[u8; NUM_COLOURS]]>>`) are modelled
at pixel granularity: a buffer is a pair of an identity (the slot index
assigned at construction) and its pixel contents, one abstract value per
pixel (each pixel is `NUM_COLOURS = 4` bytes in the source; the per-frame
copy moves whole 4-byte chunks, so pixel granularity is exact).
-/

namespace VkSaveVideo

/-- A buffer: slot identity paired with pixel contents. -/
abbrev Buf := Nat × List Nat

/-- Model of a `std::sync::mpsc` channel endpoint pair.
`capacity = none` models `mpsc::channel` (unbounded); `capacity = some c`
models `mpsc::sync_channel(c)`. `disconnected` is true once the opposite
endpoint has been dropped. -/
structure Channel (α : Type) where
  queue : List α
  capacity : Option Nat
  disconnected : Bool
  deriving DecidableEq, Repr

/-- Result of a blocking `Receiver::recv()` call. `blocks` marks the call
not returning (queue empty, sender still connected). -/
inductive RecvResult (α : Type) where
  | ok (a : α) (c : Channel α)
  | disconnected
  | blocks
  deriving DecidableEq, Repr

/-- Result of a `Sender::send` / `SyncSender::send` call. `blocks` marks a
full bounded channel; `disconnected` is the `Err` case, in which the sent
value is dropped. -/
inductive SendResult (α : Type) where
  | ok (c : Channel α)
  | disconnected
  | blocks
  deriving DecidableEq, Repr

/-- `Receiver::recv()`: pending messages are delivered even after the
sender was dropped; `Err(RecvError)` only on an empty disconnected
channel; otherwise the call blocks. -/
def Channel.recv {α : Type} (c : Channel α) : RecvResult α :=
  match c.queue with
  | a :: rest => .ok a { c with queue := rest }
  | [] => if c.disconnected then .disconnected else .blocks

/-- `Receiver::try_recv()`: non-blocking; `some` exactly when a message is
pending (both `Err(Empty)` and `Err(Disconnected)` land in `none`, which
is all the source's `if let Ok(_)` pattern distinguishes). -/
def Channel.tryRecv {α : Type} (c : Channel α) : Option (α × Channel α) :=
  match c.queue with
  | a :: rest => some (a, { c with queue := rest })
  | [] => none

/-- `send`: never blocks on an unbounded channel; blocks on a full
bounded channel; returns `Err` (dropping the value) when disconnected. -/
def Channel.send {α : Type} (c : Channel α) (a : α) : SendResult α :=
  if c.disconnected then .disconnected
  else
    match c.capacity with
    | none => .ok { c with queue := c.queue ++ [a] }
    | some cap =>
      if c.queue.length < cap then .ok { c with queue := c.queue ++ [a] }
      else .blocks

/-- `BUFFER_DEPTH` from `mod.rs`. The construction loop `for _ in
0..BUFFER_DEPTH` is embedded generically over the depth `n` below, with
this constant as the value the source pins. -/
def BUFFER_DEPTH : Nat := 5

/-- `NUM_COLOURS` from `mod.rs` (bytes per pixel, RGBA). -/
def NUM_COLOURS : Nat := 4

/-- The `BUFFER_DEPTH` zero-filled buffers created and sent into
`frame_return` by the construction loop in `new` (`mod.rs` 45-56):
buffer `k` gets slot identity `k` and `numPixels` zero pixels
(`vec![[0u8; NUM_COLOURS]; dimensions.0 * dimensions.1]`). -/
def initBufs (n numPixels : Nat) : List Buf :=
  (List.range n).map fun k => (k, List.replicate numPixels 0)

/-- The state owned by `new` / `VideoControl` plus the buffers currently
held by the render loop (`producerHeld`), the buffer held inside the
consumer callback between its `recv` and its recycle `send`
(`consumerHeld`), and the callback's frame counter `i` (`frameIdx`).

Channel naming follows the receiving end of each mpsc pair:
`closeChan` is `close_tx` / `close_stream`; `filledChan` is
`video_buffer_out` / `next_frame`; `recycleChan` is `frame_return` /
`video_buffer_in`. `sessionPlaying` records whether
`pipeline.set_state(gst::State::Playing)` has been requested through the
weak `video::Control` handle, and `pipelineAlive` whether that weak
reference still upgrades. -/
structure SysState where
  playing : Bool
  sessionPlaying : Bool
  pipelineAlive : Bool
  closeChan : Channel Unit
  filledChan : Channel Buf
  recycleChan : Channel Buf
  producerHeld : List Buf
  consumerHeld : List Buf
  frameIdx : Nat
  deriving DecidableEq, Repr

/-- The state built by `new` (`mod.rs` 30-101), with the pool depth `n`
and per-buffer pixel count `numPixels` as parameters: `playing: false`,
an unbounded close channel, two bounded channels of capacity `n`, and the
recycle channel seeded with all `n` buffers. -/
def mkControl (n numPixels : Nat) : SysState where
  playing := false
  sessionPlaying := false
  pipelineAlive := true
  closeChan := { queue := [], capacity := none, disconnected := false }
  filledChan := { queue := [], capacity := some n, disconnected := false }
  recycleChan := { queue := initBufs n numPixels, capacity := some n, disconnected := false }
  producerHeld := []
  consumerHeld := []
  frameIdx := 0

/-- `new` with the source's constants: depth `BUFFER_DEPTH`, pixel count
`dimensions.0 * dimensions.1`. -/
def new (width height : Nat) : SysState :=
  mkControl BUFFER_DEPTH (width * height)

/-- `VideoControl::play` (`mod.rs` 104-109): no-op when already playing;
otherwise `video::Control::play` upgrades the weak pipeline reference and,
when it is still alive, requests the Playing state; then the local flag is
set. -/
def play (s : SysState) : SysState :=
  if s.playing then s
  else
    { s with
      sessionPlaying := s.pipelineAlive || s.sessionPlaying
      playing := true }

/-- `VideoControl::stop` (`mod.rs` 110-113): clears the local flag and
sends `()` on the close channel, discarding a send error with `.ok()`.
The close channel is unbounded, so the send never blocks; the `blocks`
branch below is unreachable for it and is mapped to the unchanged
channel. -/
def stop (s : SysState) : SysState :=
  { s with
    playing := false
    closeChan :=
      match s.closeChan.send () with
      | .ok c => c
      | _ => s.closeChan }

/-- Outcome of a `VideoControl::next_buffer` call: `buf` is `Some(buffer)`
with the successor state, `nothing` is `None`, `blocks` marks the call
not returning. -/
inductive NextBufferResult where
  | buf (b : Buf) (s : SysState)
  | nothing (s : SysState)
  | blocks
  deriving DecidableEq, Repr

/-- `VideoControl::next_buffer` (`mod.rs` 114-120): when `playing`, a
blocking `self.video_buffer_in.recv()` whose `Err` (disconnected) is
turned into `None` by `.ok()`; when not playing, `None` immediately. -/
def nextBuffer (s : SysState) : NextBufferResult :=
  if s.playing then
    match s.recycleChan.recv with
    | .ok b c => .buf b { s with recycleChan := c }
    | .disconnected => .nothing s
    | .blocks => .blocks
  else .nothing s

/-- Outcome of `VideoControl::return_buffer` (`mod.rs` 121-123):
`self.video_buffer_out.send(buffer).ok()` on a bounded channel — blocks
when the channel is full, silently drops the buffer when disconnected. -/
inductive ReturnResult where
  | ok (s : SysState)
  | blocks
  deriving DecidableEq, Repr

/-- `VideoControl::return_buffer`. -/
def returnBuffer (b : Buf) (s : SysState) : ReturnResult :=
  match s.filledChan.send b with
  | .ok c => .ok { s with filledChan := c }
  | .disconnected => .ok s
  | .blocks => .blocks

/-! ### The consumer side: the gstreamer `need_data` callback

`video::setup` (`video.rs` 91-202) installs a `need_data` callback that
(1) polls `close_stream.try_recv()` and on a pending message emits
end-of-stream and returns; (2) otherwise allocates a gst buffer of
`video_info.size()` bytes, runs the closure `cb` from `mod.rs` on its
writable map, stamps the returned counter value as a presentation
timestamp, and pushes the buffer downstream.

`cb` (`mod.rs` 57-79) blocks on `next_frame.recv()`; on `Ok(frame)` it
copies the frame's pixels into the destination in 4-byte chunks (the
`chunks_exact_mut(4).zip(...)` loop stops at the shorter of the two
sides) and sends the frame back on `frame_return` (dropping it if that
channel is disconnected, via `.ok()`); on `Err` it skips both. Either
way it increments and returns the frame counter. -/

/-- `video_info.size()` for format Bgrx at `width`x`height`: 4 bytes per
pixel, stride `4 * width` (already 4-byte aligned, no padding), so
`4 * width * height` bytes in total. -/
def videoInfoSize (width height : Nat) : Nat :=
  4 * width * height

/-- `gst::MSECOND` measured in gstreamer ClockTime nanoseconds. -/
def MSECOND : Nat := 1000000

/-- `2 ^ 64`, the modulus of rust `u64` arithmetic. -/
def U64MOD : Nat := 2 ^ 64

/-- Models the rust expression `(1.0 / frame_rate as f64) as u64`
(`video.rs` 192).  Exact case analysis of the IEEE-754 double `1.0 / fr`
under rust's saturating, truncating float-to-int cast:
for `fr = 0` the quotient is positive infinity and the cast saturates to
`u64::MAX`; for `fr = 1` the quotient is exactly `1.0` and casts to `1`;
for `fr >= 2` the exact quotient lies in `(0, 1/2]`, its nearest double
is positive and at most `0.5 * (1 + 2⁻⁵²) < 1`, so truncation yields
`0`. -/
def recipAsU64 (frameRate : Nat) : Nat :=
  if frameRate = 0 then U64MOD - 1
  else if frameRate = 1 then 1
  else 0

/-- The presentation timestamp set on the `i`-th pushed frame
(`video.rs` 192): `i * (1.0 / frame_rate as f64) as u64 * gst::MSECOND`,
all in `u64` arithmetic (`*` left-associative, the cast binding tighter
than `*`). `i` is the value `cb` returned, i.e. the post-increment frame
counter. -/
def ptsOf (i frameRate : Nat) : Nat :=
  (i % U64MOD) * recipAsU64 frameRate % U64MOD * MSECOND % U64MOD

/-- The destination chunks of one gst buffer as seen by `cb`:
`buf.chunks_exact_mut(4)` over `video_info.size()` bytes. A chunk is
`none` while its bytes have never been written and `some p` once pixel
`p` was copied into it. `gst::Buffer::with_size` leaves the memory
unwritten, so all chunks start as `none`. -/
def freshDst (width height : Nat) : List (Option Nat) :=
  List.replicate (videoInfoSize width height / 4) none

/-- The copy loop of `cb` (`mod.rs` 69-71):
`for (b, t) in buf.chunks_exact_mut(4).zip(buffer.iter())` — writes one
source pixel per destination chunk and stops at the shorter side,
leaving any remaining destination chunks untouched and ignoring any
remaining source pixels. -/
def copyPixels : List (Option Nat) → List Nat → List (Option Nat)
  | [], _ => []
  | ds, [] => ds
  | _ :: ds, p :: ps => some p :: copyPixels ds ps

/-- Outcome of one `need_data` invocation: `eos` means
`appsrc.end_of_stream()` was emitted and no frame produced; `pushed dst
pts` means a buffer with chunk contents `dst` and timestamp `pts` was
handed to `appsrc.push_buffer`; `blocks` marks the invocation stuck
inside `cb` (on `next_frame.recv()` or on the recycle send). -/
inductive NeedDataOutcome where
  | eos
  | pushed (dst : List (Option Nat)) (pts : Nat)
  | blocks
  deriving DecidableEq, Repr

/-- One invocation of the `need_data` callback (`video.rs` 170-197)
including the inlined closure `cb` (`mod.rs` 57-79). -/
def needData (frameRate width height : Nat) (s : SysState) :
    SysState × NeedDataOutcome :=
  match s.closeChan.tryRecv with
  | some (_, c) => ({ s with closeChan := c }, .eos)
  | none =>
    let dst0 := freshDst width height
    match s.filledChan.recv with
    | .ok frame f =>
      let dst := copyPixels dst0 frame.2
      match s.recycleChan.send frame with
      | .ok r =>
        ({ s with filledChan := f, recycleChan := r, frameIdx := s.frameIdx + 1 },
         .pushed dst (ptsOf (s.frameIdx + 1) frameRate))
      | .disconnected =>
        ({ s with filledChan := f, frameIdx := s.frameIdx + 1 },
         .pushed dst (ptsOf (s.frameIdx + 1) frameRate))
      | .blocks => (s, .blocks)
    | .disconnected =>
      ({ s with frameIdx := s.frameIdx + 1 },
       .pushed dst0 (ptsOf (s.frameIdx + 1) frameRate))
    | .blocks => (s, .blocks)

/-! ### Interleavings of the four buffer-moving operations

For the conservation claim the four operations that move a buffer are
embedded as one step function: `acquire` is a `next_buffer` call whose
result, when a buffer is produced, is kept by the render loop; `submit`
is `return_buffer` on a buffer the render loop holds; `consume` is the
`next_frame.recv()` half of `cb`; `recycle` is the `frame_return.send`
half. `playOp` and `stopOp` interleave the lifecycle calls. A blocked
call leaves the state unchanged (the buffer stays where it was). -/

/-- The operations whose interleavings the pool invariant ranges over. -/
inductive PoolOp where
  | acquire
  | submit
  | consume
  | recycle
  | playOp
  | stopOp
  deriving DecidableEq, Repr

/-- One step of the interleaving semantics. -/
def poolStep (op : PoolOp) (s : SysState) : SysState :=
  match op with
  | .acquire =>
    match nextBuffer s with
    | .buf b t => { t with producerHeld := b :: t.producerHeld }
    | .nothing t => t
    | .blocks => s
  | .submit =>
    match s.producerHeld with
    | [] => s
    | b :: rest =>
      match returnBuffer b { s with producerHeld := rest } with
      | .ok t => t
      | .blocks => s
  | .consume =>
    match s.filledChan.recv with
    | .ok b f => { s with filledChan := f, consumerHeld := s.consumerHeld ++ [b] }
    | .disconnected => s
    | .blocks => s
  | .recycle =>
    match s.consumerHeld with
    | [] => s
    | b :: rest =>
      match s.recycleChan.send b with
      | .ok r => { s with consumerHeld := rest, recycleChan := r }
      | .disconnected => { s with consumerHeld := rest }
      | .blocks => s
  | .playOp => play s
  | .stopOp => stop s

/-- A whole interleaving, applied left to right. -/
def applyOps (ops : List PoolOp) (s : SysState) : SysState :=
  ops.foldl (fun t op => poolStep op t) s

/-- The multiset of all buffers in the system: held by the producer, in
the filled queue, in the recycle queue, or held by the consumer. -/
def allBufs (s : SysState) : Multiset Buf :=
  (s.producerHeld : Multiset Buf) + (s.filledChan.queue : Multiset Buf)
    + (s.recycleChan.queue : Multiset Buf) + (s.consumerHeld : Multiset Buf)

/-- The four location counts the invariant sums. -/
def bufCount (s : SysState) : Nat :=
  s.producerHeld.length + s.filledChan.queue.length
    + s.recycleChan.queue.length + s.consumerHeld.length

/-- The fps fraction `setup` configures on the appsrc caps (`video.rs`
line 155): `Fraction::new(frame_rate, 2)` — numerator `frame_rate`,
denominator `2`. -/
def capsFps (frameRate : Nat) : Nat × Nat := (frameRate, 2)

/-- The frame rate the presentation-timestamp expression divides by
(`video.rs` line 192): `frame_rate` itself, undivided. -/
def ptsRate (frameRate : Nat) : Nat := frameRate

/-- All observable fields of the system state except the shutdown-signal
channel. -/
def obsExceptClose (s : SysState) :
    Bool × Bool × Channel Buf × Channel Buf × List Buf × List Buf × Nat :=
  (s.playing, s.sessionPlaying, s.filledChan, s.recycleChan,
    s.producerHeld, s.consumerHeld, s.frameIdx)

/-- A reachable state exhausting the pool: `play()` followed by five
`next_buffer()` calls, none returned — the recycle queue is empty while
recording. -/
def exhausted : SysState :=
  applyOps [.playOp, .acquire, .acquire, .acquire, .acquire, .acquire] (mkControl 5 1)

/-- A reachable state with one filled frame queued: `play()`, one
`next_buffer()`, one `return_buffer()`. -/
def exFilledState : SysState :=
  applyOps [.playOp, .acquire, .submit] (mkControl 5 2)

/-- The state after the `VideoControl` (and with it `close_tx` and
`video_buffer_out`) has been dropped: both channels feeding the consumer
callback are disconnected and empty of pending messages. -/
def exDroppedControl : SysState :=
  { mkControl 5 2 with
    closeChan := { queue := [], capacity := none, disconnected := true }
    filledChan := { queue := [], capacity := some 5, disconnected := true }
    recycleChan := { queue := initBufs 5 2, capacity := some 5, disconnected := true } }

/-! ### Conservation of the buffer multiset -/

theorem allBufs_poolStep (op : PoolOp) (s : SysState)
    (hf : s.filledChan.disconnected = false)
    (hr : s.recycleChan.disconnected = false) :
    allBufs (poolStep op s) = allBufs s := by
  cases op with
  | acquire =>
    cases hp : s.playing
    · simp [poolStep, nextBuffer, hp]
    · rcases hq : s.recycleChan.queue with _ | ⟨b, rest⟩
      · simp [poolStep, nextBuffer, Channel.recv, hp, hq, hr]
      · simp only [poolStep, nextBuffer, Channel.recv, hp, hq, if_true, allBufs]
        simp only [← Multiset.cons_coe, Multiset.cons_add, Multiset.add_cons]
  | submit =>
    rcases hq : s.producerHeld with _ | ⟨b, rest⟩
    · simp [poolStep, hq]
    · simp only [poolStep, returnBuffer, Channel.send, hq, hf, if_false, Bool.false_eq_true]
      rcases hcap : s.filledChan.capacity with _ | cap
      · simp only [allBufs, hq, ← Multiset.cons_coe, ← Multiset.coe_add,
          Multiset.coe_nil, ← Multiset.singleton_add, add_zero]
        abel
      · by_cases hlen : s.filledChan.queue.length < cap
        · simp only [hlen, if_true, allBufs, hq, ← Multiset.cons_coe, ← Multiset.coe_add,
            Multiset.coe_nil, ← Multiset.singleton_add, add_zero]
          abel
        · simp [hlen]
  | consume =>
    rcases hq : s.filledChan.queue with _ | ⟨b, rest⟩
    · simp [poolStep, Channel.recv, hq, hf]
    · simp only [poolStep, Channel.recv, hq, allBufs, ← Multiset.cons_coe, ← Multiset.coe_add,
        Multiset.coe_nil, ← Multiset.singleton_add, add_zero]
      abel
  | recycle =>
    rcases hq : s.consumerHeld with _ | ⟨b, rest⟩
    · simp [poolStep, hq]
    · simp only [poolStep, Channel.send, hq, hr, if_false, Bool.false_eq_true]
      rcases hcap : s.recycleChan.capacity with _ | cap
      · simp only [allBufs, hq, ← Multiset.cons_coe, ← Multiset.coe_add,
          Multiset.coe_nil, ← Multiset.singleton_add, add_zero]
        abel
      · by_cases hlen : s.recycleChan.queue.length < cap
        · simp only [hlen, if_true, allBufs, hq, ← Multiset.cons_coe, ← Multiset.coe_add,
            Multiset.coe_nil, ← Multiset.singleton_add, add_zero]
          abel
        · simp [hlen]
  | playOp =>
    cases hp : s.playing <;> simp [poolStep, play, hp, allBufs]
  | stopOp =>
    simp [poolStep, stop, allBufs]

theorem poolStep_disconnected (op : PoolOp) (s : SysState) :
    (poolStep op s).filledChan.disconnected = s.filledChan.disconnected
      ∧ (poolStep op s).recycleChan.disconnected = s.recycleChan.disconnected := by
  cases op with
  | acquire =>
    cases hp : s.playing
    · simp [poolStep, nextBuffer, hp]
    · rcases hq : s.recycleChan.queue with _ | ⟨b, rest⟩
      · cases hd : s.recycleChan.disconnected <;>
          simp [poolStep, nextBuffer, Channel.recv, hp, hq, hd]
      · simp [poolStep, nextBuffer, Channel.recv, hp, hq]
  | submit =>
    rcases hq : s.producerHeld with _ | ⟨b, rest⟩
    · simp [poolStep, hq]
    · cases hd : s.filledChan.disconnected
      · simp only [poolStep, returnBuffer, Channel.send, hq, hd, if_false,
          Bool.false_eq_true]
        rcases hcap : s.filledChan.capacity with _ | cap
        · simp [hd]
        · by_cases hlen : s.filledChan.queue.length < cap <;> simp [hlen, hd]
      · simp [poolStep, returnBuffer, Channel.send, hq, hd]
  | consume =>
    rcases hq : s.filledChan.queue with _ | ⟨b, rest⟩
    · cases hd : s.filledChan.disconnected <;>
        simp [poolStep, Channel.recv, hq, hd]
    · simp [poolStep, Channel.recv, hq]
  | recycle =>
    rcases hq : s.consumerHeld with _ | ⟨b, rest⟩
    · simp [poolStep, hq]
    · cases hd : s.recycleChan.disconnected
      · simp only [poolStep, Channel.send, hq, hd, if_false, Bool.false_eq_true]
        rcases hcap : s.recycleChan.capacity with _ | cap
        · simp [hd]
        · by_cases hlen : s.recycleChan.queue.length < cap <;> simp [hlen, hd]
      · simp [poolStep, Channel.send, hq, hd]
  | playOp =>
    cases hp : s.playing <;> simp [poolStep, play, hp]
  | stopOp =>
    simp [poolStep, stop]

theorem allBufs_applyOps (ops : List PoolOp) (s : SysState)
    (hf : s.filledChan.disconnected = false)
    (hr : s.recycleChan.disconnected = false) :
    allBufs (applyOps ops s) = allBufs s := by
  induction ops generalizing s with
  | nil => rfl
  | cons op rest ih =>
    have hstep := allBufs_poolStep op s hf hr
    have hd := poolStep_disconnected op s
    have := ih (poolStep op s) (by rw [hd.1, hf]) (by rw [hd.2, hr])
    calc allBufs (applyOps (op :: rest) s)
        = allBufs (applyOps rest (poolStep op s)) := rfl
      _ = allBufs (poolStep op s) := this
      _ = allBufs s := hstep

theorem card_allBufs (s : SysState) : Multiset.card (allBufs s) = bufCount s := by
  simp only [allBufs, bufCount, Multiset.card_add, Multiset.coe_card]

/-! ### Lemmas on the producer-side operations -/

theorem nextBuffer_of_not_playing (s : SysState) (h : s.playing = false) :
    nextBuffer s = .nothing s := by
  simp [nextBuffer, h]

theorem nextBuffer_blocks_iff (s : SysState) :
    nextBuffer s = NextBufferResult.blocks ↔
      s.playing = true ∧ s.recycleChan.queue = []
        ∧ s.recycleChan.disconnected = false := by
  cases hp : s.playing
  · simp [nextBuffer, hp]
  · rcases hq : s.recycleChan.queue with _ | ⟨b, rest⟩
    · cases hd : s.recycleChan.disconnected <;>
        simp [nextBuffer, Channel.recv, hp, hq, hd]
    · simp [nextBuffer, Channel.recv, hp, hq]

theorem nextBuffer_of_disconnected (s : SysState) (hq : s.recycleChan.queue = [])
    (hd : s.recycleChan.disconnected = true) :
    nextBuffer s = .nothing s := by
  cases hp : s.playing <;> simp [nextBuffer, Channel.recv, hp, hq, hd]

theorem play_play (s : SysState) : play (play s) = play s := by
  cases hp : s.playing <;> simp [play, hp]

theorem stop_playing (s : SysState) : (stop s).playing = false := rfl

theorem obsExceptClose_stop (s : SysState) :
    obsExceptClose (stop s) =
      (false, s.sessionPlaying, s.filledChan, s.recycleChan,
        s.producerHeld, s.consumerHeld, s.frameIdx) := rfl

theorem stop_closeChan_length (s : SysState) (hd : s.closeChan.disconnected = false)
    (hcap : s.closeChan.capacity = none) :
    (stop s).closeChan.queue.length = s.closeChan.queue.length + 1 := by
  simp [stop, Channel.send, hd, hcap]

theorem stop_closeChan_props (s : SysState) :
    (stop s).closeChan.disconnected = s.closeChan.disconnected
      ∧ (stop s).closeChan.capacity = s.closeChan.capacity := by
  cases hd : s.closeChan.disconnected
  · rcases hcap : s.closeChan.capacity with _ | cap
    · simp [stop, Channel.send, hd, hcap]
    · by_cases hlen : s.closeChan.queue.length < cap <;>
        simp [stop, Channel.send, hd, hcap, hlen]
  · simp [stop, Channel.send, hd]

theorem send_unbounded_ne_blocks {α : Type} (c : Channel α) (a : α)
    (hcap : c.capacity = none) : c.send a ≠ SendResult.blocks := by
  cases hd : c.disconnected <;> simp [Channel.send, hd, hcap]

/-! ### Lemmas on the consumer callback -/

theorem needData_of_signal (fr w h : Nat) (s : SysState) (u : Unit) (q : List Unit)
    (hq : s.closeChan.queue = u :: q) :
    needData fr w h s =
      ({ s with closeChan := { s.closeChan with queue := q } }, .eos) := by
  simp [needData, Channel.tryRecv, hq]

theorem needData_no_signal_not_eos (fr w h : Nat) (s : SysState)
    (hq : s.closeChan.queue = []) :
    (needData fr w h s).2 ≠ NeedDataOutcome.eos := by
  simp only [needData, Channel.tryRecv, hq]
  rcases hfq : s.filledChan.queue with _ | ⟨b, rest⟩
  · cases hfd : s.filledChan.disconnected <;>
      simp [Channel.recv, hfq, hfd]
  · simp only [Channel.recv, hfq]
    rcases hsend : s.recycleChan.send (b.1, b.2) with r | _ | _ <;>
      simp [hsend]

theorem needData_eos_iff (fr w h : Nat) (s : SysState) :
    (needData fr w h s).2 = NeedDataOutcome.eos ↔ s.closeChan.queue ≠ [] := by
  rcases hq : s.closeChan.queue with _ | ⟨u, q⟩
  · simp [needData_no_signal_not_eos fr w h s hq]
  · simp [needData_of_signal fr w h s u q hq]

theorem needData_recv_disconnected (fr w h : Nat) (s : SysState)
    (hc : s.closeChan.queue = []) (hq : s.filledChan.queue = [])
    (hd : s.filledChan.disconnected = true) :
    needData fr w h s =
      ({ s with frameIdx := s.frameIdx + 1 },
        .pushed (freshDst w h) (ptsOf (s.frameIdx + 1) fr)) := by
  simp [needData, Channel.tryRecv, Channel.recv, hc, hq, hd]

theorem needData_playing (fr w h : Nat) (s : SysState) :
    ((needData fr w h s).1).playing = s.playing := by
  rcases hc : s.closeChan.queue with _ | ⟨u, q⟩
  · simp only [needData, Channel.tryRecv, hc]
    rcases hfq : s.filledChan.queue with _ | ⟨b, rest⟩
    · cases hfd : s.filledChan.disconnected <;>
        simp [Channel.recv, hfq, hfd]
    · simp only [Channel.recv, hfq]
      rcases hsend : s.recycleChan.send (b.1, b.2) with r | _ | _ <;>
        simp [hsend]
  · simp [needData, Channel.tryRecv, hc]

theorem needData_pushed_pts (fr w h : Nat) (s : SysState)
    (dst : List (Option Nat)) (p : Nat)
    (hp : (needData fr w h s).2 = NeedDataOutcome.pushed dst p) :
    p = ptsOf (s.frameIdx + 1) fr := by
  rcases hc : s.closeChan.queue with _ | ⟨u, q⟩
  · simp only [needData, Channel.tryRecv, hc] at hp
    rcases hfq : s.filledChan.queue with _ | ⟨b, rest⟩
    · cases hfd : s.filledChan.disconnected <;>
        simp [Channel.recv, hfq, hfd] at hp
      exact hp.2.symm
    · simp only [Channel.recv, hfq] at hp
      rcases hsend : s.recycleChan.send (b.1, b.2) with r | _ | _ <;>
        simp [hsend] at hp
      · exact hp.2.symm
      · exact hp.2.symm
  · simp [needData, Channel.tryRecv, hc] at hp

theorem ptsOf_eq_zero (i fr : Nat) (hfr : 2 ≤ fr) : ptsOf i fr = 0 := by
  have h0 : fr ≠ 0 := by omega
  have h1 : fr ≠ 1 := by omega
  simp [ptsOf, recipAsU64, h0, h1]

theorem copyPixels_full (ds : List (Option Nat)) (src : List Nat)
    (hlen : ds.length = src.length) :
    copyPixels ds src = src.map some := by
  induction src generalizing ds with
  | nil =>
    rcases ds with _ | ⟨d, ds⟩
    · rfl
    · simp at hlen
  | cons p ps ih =>
    rcases ds with _ | ⟨d, ds⟩
    · simp at hlen
    · simp only [List.length_cons, Nat.add_right_cancel_iff] at hlen
      simp [copyPixels, ih ds hlen]

theorem freshDst_length (w h : Nat) : (freshDst w h).length = w * h := by
  simp only [freshDst, videoInfoSize, List.length_replicate, Nat.mul_assoc]
  exact Nat.mul_div_cancel_left (w * h) (by norm_num)

theorem poolStep_consume_playing (s : SysState) :
    (poolStep .consume s).playing = s.playing := by
  rcases hq : s.filledChan.queue with _ | ⟨b, rest⟩
  · cases hd : s.filledChan.disconnected <;>
      simp [poolStep, Channel.recv, hq, hd]
  · simp [poolStep, Channel.recv, hq]

theorem poolStep_recycle_playing (s : SysState) :
    (poolStep .recycle s).playing = s.playing := by
  rcases hq : s.consumerHeld with _ | ⟨b, rest⟩
  · simp [poolStep, hq]
  · cases hd : s.recycleChan.disconnected
    · rcases hcap : s.recycleChan.capacity with _ | cap
      · simp [poolStep, Channel.send, hq, hd, hcap]
      · by_cases hlen : s.recycleChan.queue.length < cap <;>
          simp [poolStep, Channel.send, hq, hd, hcap, hlen]
    · simp [poolStep, Channel.send, hq, hd]

/-! ### The claims -/

/-- C1, counterexample: in the reachable state after `play()` and five
pool-exhausting `next_buffer()` calls, the recycle queue is empty while
recording, and a further `next_buffer()` call blocks instead of
returning `None` — `mod.rs` line 116 uses the blocking `recv()`, not
`try_recv()`. -/
theorem C1_next_buffer_blocks_cex :
    exhausted.playing = true ∧ exhausted.recycleChan.queue = [] ∧
    nextBuffer exhausted = NextBufferResult.blocks := by
  exact ⟨by decide, by decide, by decide⟩

/-- C1 (amended): while recording, `next_buffer()` performs a blocking
receive on the recycle queue: it blocks exactly when the queue is empty
and still connected (for as long as the consumer takes to recycle a
buffer, unbounded); it returns `None` only when not recording, or when
the queue is empty and its sending side has been dropped. -/
theorem C1_next_buffer_blocking (s : SysState) :
    (nextBuffer s = NextBufferResult.blocks ↔
      s.playing = true ∧ s.recycleChan.queue = []
        ∧ s.recycleChan.disconnected = false) ∧
    (s.playing = false → nextBuffer s = NextBufferResult.nothing s) ∧
    (s.recycleChan.queue = [] → s.recycleChan.disconnected = true →
      nextBuffer s = NextBufferResult.nothing s) :=
  ⟨nextBuffer_blocks_iff s, nextBuffer_of_not_playing s,
    nextBuffer_of_disconnected s⟩

theorem C1_next_buffer_blocking_witness :
    nextBuffer exhausted = NextBufferResult.blocks ∧
    nextBuffer (mkControl 5 1) = NextBufferResult.nothing (mkControl 5 1) :=
  ⟨(C1_next_buffer_blocking exhausted).1.mpr ⟨by decide, by decide, by decide⟩,
    (C1_next_buffer_blocking (mkControl 5 1)).2.1 (by decide)⟩

/-- C2 (code bug): the timestamp expression `i * (1.0 / frame_rate as
f64) as u64 * gst::MSECOND` truncates the reciprocal to an integer
before multiplying, so for every `frame_rate >= 2` the presentation
timestamp of every pushed frame is 0 — neither strictly increasing nor
spaced by `1/frame_rate` as the spec states. -/
theorem C2_pts_constant_zero (fr : Nat) (hfr : 2 ≤ fr) :
    (∀ i, ptsOf i fr = 0) ∧
    (∀ w h s dst p,
      (needData fr w h s).2 = NeedDataOutcome.pushed dst p → p = 0) := by
  refine ⟨fun i => ptsOf_eq_zero i fr hfr, fun w h s dst p hp => ?_⟩
  rw [needData_pushed_pts fr w h s dst p hp]
  exact ptsOf_eq_zero _ fr hfr

theorem C2_pts_constant_zero_witness :
    ptsOf 1 30 = 0 ∧ ptsOf 2 30 = 0 ∧
    (needData 30 2 1 exFilledState).2 = NeedDataOutcome.pushed [some 0, some 0] 0 :=
  ⟨(C2_pts_constant_zero 30 (by norm_num)).1 1,
    (C2_pts_constant_zero 30 (by norm_num)).1 2, by decide⟩

/-- C3: for every pool depth `n ≥ 1`, construction seeds the recycle
queue with all `n` buffers, and every interleaving of acquire
(`next_buffer`), submit (`return_buffer`), consume, recycle, `play` and
`stop` operations preserves the full multiset of buffers — the buffers
held by the producer, in the filled queue, in the recycle queue and held
by the consumer are together exactly the `n` distinct seeded buffers, so
their counts sum to `n` and no buffer is duplicated or dropped. -/
theorem C3_buffer_conservation (n numPixels : Nat) (_hn : 1 ≤ n)
    (ops : List PoolOp) :
    (mkControl n numPixels).recycleChan.queue = initBufs n numPixels ∧
    allBufs (applyOps ops (mkControl n numPixels))
      = (initBufs n numPixels : Multiset Buf) ∧
    bufCount (applyOps ops (mkControl n numPixels)) = n := by
  have h1 : allBufs (applyOps ops (mkControl n numPixels))
      = allBufs (mkControl n numPixels) :=
    allBufs_applyOps ops _ rfl rfl
  have h2 : allBufs (mkControl n numPixels)
      = (initBufs n numPixels : Multiset Buf) := by
    simp [allBufs, mkControl]
  refine ⟨rfl, h1.trans h2, ?_⟩
  rw [← card_allBufs, h1, h2]
  simp [initBufs]

theorem C3_buffer_conservation_witness :
    allBufs (applyOps [.playOp, .acquire, .submit, .consume, .recycle]
        (mkControl 5 1))
      = (initBufs 5 1 : Multiset Buf) ∧
    bufCount (applyOps [.playOp, .acquire, .submit, .consume, .recycle]
        (mkControl 5 1)) = 5 :=
  ⟨(C3_buffer_conservation 5 1 (by norm_num)
      [.playOp, .acquire, .submit, .consume, .recycle]).2.1,
    (C3_buffer_conservation 5 1 (by norm_num)
      [.playOp, .acquire, .submit, .consume, .recycle]).2.2⟩

/-- C4: whenever the session is not recording — in the freshly
constructed state, and after any `stop()` — `next_buffer()` returns
`None` without blocking, and consuming or recycling in-flight buffers
(one `need_data` invocation, or the consume and recycle steps) never
changes the recording flag, so the calls keep returning `None`. -/
theorem C4_next_buffer_none_when_not_playing (n numPixels fr w h : Nat)
    (s t : SysState) :
    (mkControl n numPixels).playing = false ∧
    (stop t).playing = false ∧
    (s.playing = false → nextBuffer s = NextBufferResult.nothing s) ∧
    ((needData fr w h t).1).playing = t.playing ∧
    (poolStep .consume t).playing = t.playing ∧
    (poolStep .recycle t).playing = t.playing :=
  ⟨rfl, stop_playing t, nextBuffer_of_not_playing s,
    needData_playing fr w h t, poolStep_consume_playing t,
    poolStep_recycle_playing t⟩

theorem C4_next_buffer_none_when_not_playing_witness :
    nextBuffer (mkControl 5 2) = NextBufferResult.nothing (mkControl 5 2) ∧
    nextBuffer (stop exFilledState)
      = NextBufferResult.nothing (stop exFilledState) :=
  ⟨(C4_next_buffer_none_when_not_playing 5 2 30 2 1
      (mkControl 5 2) (mkControl 5 2)).2.2.1 (by decide),
    (C4_next_buffer_none_when_not_playing 5 2 30 2 1
      (stop exFilledState) (stop exFilledState)).2.2.1 (by decide)⟩

/-- C6, counterexample: with the filled-buffer channel disconnected and
empty (the `recv` error case) and no shutdown signal pending, the
`need_data` callback does not emit end-of-stream — it still pushes a
frame downstream, with every destination chunk unwritten. -/
theorem C6_recv_error_cex :
    (needData 30 2 1 exDroppedControl).2
      = NeedDataOutcome.pushed [none, none] 0 ∧
    (needData 30 2 1 exDroppedControl).2 ≠ NeedDataOutcome.eos := by
  exact ⟨by decide, by decide⟩

/-- C6 (amended): when the pull from the filled-buffer queue yields an
error (channel disconnected, no pending data), the callback treats it as
neither end-of-stream nor a fatal failure: it skips the pixel copy and
the recycle send, but still increments the frame counter and pushes a
buffer downstream whose destination chunks are all unwritten; no
end-of-stream marker is emitted on this path. -/
theorem C6_recv_error_still_pushes (fr w h : Nat) (s : SysState)
    (hc : s.closeChan.queue = []) (hq : s.filledChan.queue = [])
    (hd : s.filledChan.disconnected = true) :
    needData fr w h s =
      ({ s with frameIdx := s.frameIdx + 1 },
        NeedDataOutcome.pushed (freshDst w h) (ptsOf (s.frameIdx + 1) fr)) ∧
    ∀ d ∈ freshDst w h, d = none := by
  refine ⟨needData_recv_disconnected fr w h s hc hq hd, fun d hmem => ?_⟩
  exact List.eq_of_mem_replicate hmem

theorem C6_recv_error_still_pushes_witness :
    needData 30 2 1 exDroppedControl =
      ({ exDroppedControl with frameIdx := 1 },
        NeedDataOutcome.pushed (freshDst 2 1) (ptsOf 1 30)) :=
  (C6_recv_error_still_pushes 30 2 1 exDroppedControl
    (by decide) (by decide) (by decide)).1

/-- C7: in every `need_data` invocation the shutdown signal is polled
non-blockingly first: the invocation emits end-of-stream exactly when a
signal message is pending, and in that case it consumes one signal
message, touches neither the filled queue nor the frame counter, and
produces no frame — the signal check is the only path producing the
end-of-stream outcome. -/
theorem C7_shutdown_signal_eos (fr w h : Nat) (s : SysState) :
    ((needData fr w h s).2 = NeedDataOutcome.eos ↔ s.closeChan.queue ≠ []) ∧
    (∀ u q, s.closeChan.queue = u :: q →
      needData fr w h s =
        ({ s with closeChan := { s.closeChan with queue := q } },
          NeedDataOutcome.eos)) :=
  ⟨needData_eos_iff fr w h s, fun u q hq => needData_of_signal fr w h s u q hq⟩

theorem C7_shutdown_signal_eos_witness :
    (needData 30 2 1 (stop (mkControl 5 2))).2 = NeedDataOutcome.eos :=
  (C7_shutdown_signal_eos 30 2 1 (stop (mkControl 5 2))).1.mpr (by decide)

/-- C8, counterexample: two successive `stop()` calls do not leave the
observable state identical to one call — each `stop()` enqueues a fresh
message on the shutdown-signal channel, so the channel holds two
messages after the second call and one after the first. -/
theorem C8_stop_not_idempotent_cex :
    stop (stop (mkControl 5 2)) ≠ stop (mkControl 5 2) ∧
    (stop (stop (mkControl 5 2))).closeChan.queue.length = 2 ∧
    (stop (mkControl 5 2)).closeChan.queue.length = 1 := by
  exact ⟨by decide, by decide, by decide⟩

/-- C8 (amended): `play()` is idempotent — calling it twice gives a
state equal to calling it once; `stop()` is idempotent on every
observable component except the shutdown-signal channel (recording flag,
session state, both buffer channels, held buffers, frame counter), but
each call appends one more message to the connected unbounded
shutdown-signal channel; `stop()` never blocks, since a send on an
unbounded channel cannot block. -/
theorem C8_play_stop_idempotence (s : SysState) :
    play (play s) = play s ∧
    obsExceptClose (stop (stop s)) = obsExceptClose (stop s) ∧
    (s.closeChan.disconnected = false → s.closeChan.capacity = none →
      (stop s).closeChan.queue.length = s.closeChan.queue.length + 1 ∧
      (stop (stop s)).closeChan.queue.length = s.closeChan.queue.length + 2) ∧
    (s.closeChan.capacity = none →
      s.closeChan.send () ≠ SendResult.blocks) := by
  refine ⟨play_play s, rfl, fun hd hcap => ?_,
    fun hcap => send_unbounded_ne_blocks s.closeChan () hcap⟩
  have h1 := stop_closeChan_length s hd hcap
  have hp := stop_closeChan_props s
  have h2 := stop_closeChan_length (stop s) (by rw [hp.1, hd]) (by rw [hp.2, hcap])
  exact ⟨h1, by rw [h2, h1]⟩

theorem C8_play_stop_idempotence_witness :
    play (play (mkControl 5 2)) = play (mkControl 5 2) ∧
    obsExceptClose (stop (stop (mkControl 5 2)))
      = obsExceptClose (stop (mkControl 5 2)) ∧
    (stop (mkControl 5 2)).closeChan.queue.length = 1 :=
  ⟨(C8_play_stop_idempotence (mkControl 5 2)).1,
    (C8_play_stop_idempotence (mkControl 5 2)).2.1,
    ((C8_play_stop_idempotence (mkControl 5 2)).2.2.1 (by decide) rfl).1⟩

/-- C9, counterexample: the per-frame copy loop, run on mismatched
lengths, completes without any error: with three destination chunks and
two source pixels it silently leaves the last chunk unwritten, and with
one destination chunk and two source pixels it silently drops the second
pixel — no mismatch is surfaced, at setup or anywhere else. -/
theorem C9_mismatched_copy_silently_truncates :
    copyPixels (List.replicate 3 (none : Option Nat)) [7, 8]
      = [some 7, some 8, none] ∧
    copyPixels (List.replicate 1 (none : Option Nat)) [7, 8] = [some 7] := by
  exact ⟨by decide, by decide⟩

/-- C9 (amended): no explicit mismatch validation exists at setup;
instead, the encoder buffer size and the producer pixel count are both
derived from the same dimensions, so they always agree — every seeded
buffer holds `w * h` pixels and the destination of each frame has
exactly `w * h` chunks — and with equal lengths the per-frame copy
writes every destination chunk; the copy loop itself stops at the
shorter side and would silently leave destination chunks unwritten if
the lengths ever differed. -/
theorem C9_sizes_agree_by_construction (w h : Nat) (src : List Nat)
    (hlen : src.length = w * h) :
    (∀ b ∈ (new w h).recycleChan.queue, b.2.length = w * h) ∧
    (freshDst w h).length = src.length ∧
    copyPixels (freshDst w h) src = src.map some := by
  have hf := freshDst_length w h
  refine ⟨fun b hb => ?_, by rw [hf, hlen],
    copyPixels_full _ _ (by rw [hf, hlen])⟩
  simp only [new, mkControl, initBufs, List.mem_map, List.mem_range] at hb
  obtain ⟨k, -, rfl⟩ := hb
  simp

theorem C9_sizes_agree_by_construction_witness :
    (freshDst 2 1).length = 2 ∧
    copyPixels (freshDst 2 1) [5, 6] = [some 5, some 6] :=
  ⟨((C9_sizes_agree_by_construction 2 1 [5, 6] (by decide)).2.1),
    ((C9_sizes_agree_by_construction 2 1 [5, 6] (by decide)).2.2)⟩

/-- C10: `setup` configures the appsrc caps with the fps fraction
`Fraction::new(frame_rate, 2)`, i.e. `frame_rate / 2` frames per second
— half the requested frame rate — while the presentation-timestamp
expression divides by `frame_rate` itself, so for every
`frame_rate >= 1` the advertised rate and the rate used for timestamp
spacing disagree by a factor of two. -/
theorem C10_caps_half_frame_rate (fr : Nat) :
    capsFps fr = (fr, 2) ∧
    ((capsFps fr).1 : ℚ) / ((capsFps fr).2 : ℚ) * 2 = ((ptsRate fr : Nat) : ℚ) ∧
    (1 ≤ fr →
      ((capsFps fr).1 : ℚ) / ((capsFps fr).2 : ℚ) ≠ ((ptsRate fr : Nat) : ℚ)) := by
  refine ⟨rfl, ?_, fun hfr => ?_⟩
  · simp only [capsFps, ptsRate, Nat.cast_ofNat]
    rw [div_mul_cancel₀]
    norm_num
  · simp only [capsFps, ptsRate, Nat.cast_ofNat]
    intro hcontra
    rw [div_eq_iff (by norm_num : (2 : ℚ) ≠ 0)] at hcontra
    have hz : (fr : ℚ) = 0 := by linarith
    have : fr = 0 := by exact_mod_cast hz
    omega

theorem C10_caps_half_frame_rate_witness :
    capsFps 30 = (30, 2) ∧
    ((capsFps 30).1 : ℚ) / ((capsFps 30).2 : ℚ) ≠ ((ptsRate 30 : Nat) : ℚ) :=
  ⟨(C10_caps_half_frame_rate 30).1,
    (C10_caps_half_frame_rate 30).2.2 (by norm_num)⟩

end VkSaveVideo
